import Mathlib

/-!
Verification development for the `prepline_general/api/app.py` gateway layer
of the unstructured-api repository: error normalization, OpenAPI synthesis
and caching, access-log noise filters, CORS configuration, and the health
probe, shallowly embedded in Lean.
-/

/-- A JSON-like value, the data model for response bodies and for the
OpenAPI description document.  Objects are ordered association lists,
mirroring Python dict insertion order. -/
inductive Json where
  | null : Json
  | bool : Bool → Json
  | num : Rat → Json
  | str : String → Json
  | arr : List Json → Json
  | obj : List (String × Json) → Json

/-- Python dict getitem: look a key up in an object, raising `KeyError`
when absent and `TypeError` when the value is not a dict. -/
def getKey : Json → String → Except String Json
  | Json.obj fs, k =>
    match fs.lookup k with
    | some v => Except.ok v
    | none => Except.error ("KeyError: " ++ k)
  | _, k => Except.error ("TypeError: " ++ k)

/-- Python dict setitem on the underlying association list: replace the
value at an existing key in place, otherwise append the binding at the
end (dict insertion order). -/
def objSet : List (String × Json) → String → Json → List (String × Json)
  | [], k, v => [(k, v)]
  | (k', v') :: rest, k, v =>
    if k' = k then (k', v) :: rest else (k', v') :: objSet rest k v

/-- Remove a key's binding from the association list (Python `dict.pop`),
keeping the order of the other bindings. -/
def objRemove : List (String × Json) → String → List (String × Json)
  | [], _ => []
  | (k', v') :: rest, k => if k' = k then rest else (k', v') :: objRemove rest k

/-- Python dict setitem at the JSON level: only objects support it. -/
def setKey : Json → String → Json → Except String Json
  | Json.obj fs, k, v => Except.ok (Json.obj (objSet fs k v))
  | _, k, _ => Except.error ("TypeError: " ++ k)

/-- Python `dict.pop(k)` (no default): return the removed value and the
remaining object, raising `KeyError` when the key is absent. -/
def popKey : Json → String → Except String (Json × Json)
  | Json.obj fs, k =>
    match fs.lookup k with
    | some v => Except.ok (v, Json.obj (objRemove fs k))
    | none => Except.error ("KeyError: " ++ k)
  | _, k => Except.error ("TypeError: " ++ k)

/-- A chained Python subscript assignment `j[k1][k2]...[kn] = f`:
every key on the way is read with getitem (and can raise), and the final
object is transformed by `f` and written back. -/
def updatePath : Json → List String → (Json → Except String Json) → Except String Json
  | j, [], f => f j
  | j, k :: ks, f =>
    match getKey j k with
    | Except.error e => Except.error e
    | Except.ok v =>
      match updatePath v ks f with
      | Except.error e => Except.error e
      | Except.ok v' => setKey j k v'

/-- A chained Python subscript read `j[k1][k2]...[kn]`. -/
def getPath : Json → List String → Except String Json
  | j, [] => Except.ok j
  | j, k :: ks =>
    match getKey j k with
    | Except.error e => Except.error e
    | Except.ok v => getPath v ks

/-- Whether an exception-carrying computation succeeded. -/
def exIsOk : Except String Json → Bool
  | Except.ok _ => true
  | Except.error _ => false

/-- The key list of a JSON object (empty for non-objects). -/
def objKeys : Json → List String
  | Json.obj fs => fs.map Prod.fst
  | _ => []

/-! ## Error Normalizer (`http_error_handler`, `error_handler`) -/

/-- Logging severity levels used by the gateway. -/
inductive LogLevel where
  | info : LogLevel
  | error : LogLevel
deriving DecidableEq

/-- One emitted log entry: a severity and a message. -/
structure LogEntry where
  level : LogLevel
  msg : String
deriving DecidableEq

/-- A structured failure: FastAPI's `HTTPException`, carrying an explicit
HTTP status code and a detail message. -/
structure HTTPException where
  status_code : Nat
  detail : String

/-- An unstructured failure: any other Python exception, abstracted to its
string representation `str(e)`. -/
structure PyException where
  msg : String

/-- A JSON response: HTTP status code plus JSON body. -/
structure JSONResponse where
  status_code : Nat
  content : Json

/-- The `HTTPException` handler: logs the detail at error level and
returns a response with the original status code and the detail placed in
the error envelope. -/
def http_error_handler (e : HTTPException) : JSONResponse × List LogEntry :=
  ({ status_code := e.status_code, content := Json.obj [("detail", Json.str e.detail)] },
   [{ level := LogLevel.error, msg := e.detail }])

/-- The catch-all `Exception` handler: returns status 500 with `str(e)` in
the error envelope, and logs nothing. -/
def error_handler (e : PyException) : JSONResponse × List LogEntry :=
  ({ status_code := 500, content := Json.obj [("detail", Json.str e.msg)] }, [])

/-- A failure surfacing from route handling, dispatched by exception type:
`HTTPException` goes to `http_error_handler`, every other exception to
`error_handler`. -/
inductive AppFailure where
  | http : HTTPException → AppFailure
  | unstructured : PyException → AppFailure

/-- The exception-handler dispatch installed on the app. -/
def handle_failure : AppFailure → JSONResponse × List LogEntry
  | AppFailure.http e => http_error_handler e
  | AppFailure.unstructured e => error_handler e

/-! ## Health Probe (`healthcheck`) -/

/-- An inbound HTTP request, abstracted to the parts a handler could
inspect. -/
structure Request where
  method : String
  path : String
  body : String

/-- The `/healthcheck` route handler (registered with status code 200 and
`include_in_schema=False`); it ignores the request entirely. -/
def healthcheck (request : Request) : JSONResponse :=
  { status_code := 200,
    content := Json.obj [("healthcheck", Json.str "HEALTHCHECK STATUS: EVERYTHING OK!")] }

/-! ## Log Noise Filters (`HealthCheckFilter`, `MetricsCheckFilter`) -/

/-- A log record, abstracted to its rendered message (`getMessage`). -/
structure LogRecord where
  msg : String

/-- The rendered message of a log record. -/
def LogRecord.getMessage (r : LogRecord) : String := r.msg

/-- Position of the first occurrence of `sub` in a character list, if
any (the search Python's `str.find` performs). -/
def findSubPos (sub : List Char) : List Char → Option Nat
  | [] => if sub = [] then some 0 else none
  | c :: rest =>
    if sub <+: (c :: rest) then some 0 else (findSubPos sub rest).map (· + 1)

/-- Python's `s.find(sub)`: the first index where `sub` occurs in `s`, or
`-1` when it does not occur. -/
def pyFind (s sub : String) : Int :=
  match findSubPos sub.toList s.toList with
  | some n => Int.ofNat n
  | none => -1

/-- `HealthCheckFilter.filter`: keep a record only when its rendered
message does not contain `"/healthcheck"`. -/
def HealthCheckFilter_filter (record : LogRecord) : Bool :=
  pyFind record.getMessage "/healthcheck" == -1

/-- `MetricsCheckFilter.filter`: keep a record only when its rendered
message does not contain `"/metrics"`. -/
def MetricsCheckFilter_filter (record : LogRecord) : Bool :=
  pyFind record.getMessage "/metrics" == -1

/-- The filters installed on the `uvicorn.access` logger. -/
def uvicorn_access_filters : List (LogRecord → Bool) :=
  [HealthCheckFilter_filter, MetricsCheckFilter_filter]

/-- The filters installed on the `unstructured_api` logger used by the
error normalizer: none. -/
def unstructured_api_filters : List (LogRecord → Bool) := []

/-- A logger emits a record exactly when every installed filter keeps
it. -/
def emitted (filters : List (LogRecord → Bool)) (r : LogRecord) : Bool :=
  filters.all (fun f => f r)

/-! ## CORS Policy Gate -/

/-- Split a character list at every occurrence of the separator
character (the behavior of Python's `str.split` for a one-character
separator, which is how the source splits the origin list on `","`). -/
def pySplitAux (sep : Char) : List Char → List Char → List String
  | [], acc => [String.mk acc.reverse]
  | c :: rest, acc =>
    if c = sep then String.mk acc.reverse :: pySplitAux sep rest []
    else pySplitAux sep rest (c :: acc)

/-- Python's `s.split(sep)` for a one-character separator. -/
def pySplit (s : String) (sep : Char) : List String :=
  pySplitAux sep s.toList []

/-- The value of the `ALLOWED_ORIGINS` environment variable under an
environment `env`. -/
def allowed_origins (env : String → Option String) : Option String :=
  env "ALLOWED_ORIGINS"

/-- Configuration of the CORS middleware as installed by the app. -/
structure CORSConfig where
  allow_origins : List String
  allow_methods : List String
  allow_headers : List String
deriving DecidableEq

/-- The conditional CORS middleware installation: installed only when
`ALLOWED_ORIGINS` is set and non-empty (Python truthiness), with the
comma-separated origins and the fixed method and header lists. -/
def cors_middleware (env : String → Option String) : Option CORSConfig :=
  match allowed_origins env with
  | none => none
  | some s =>
    if s = "" then none
    else some { allow_origins := pySplit s ',',
                allow_methods := ["OPTIONS", "POST"],
                allow_headers := ["Content-Type"] }

/-- An environment with the origin allow-list variable unset. -/
def env_unset : String → Option String := fun _ => none

/-- An environment with the origin allow-list variable set to two
comma-separated origins. -/
def env_two_origins : String → Option String :=
  fun k => if k = "ALLOWED_ORIGINS" then some "https://a.com,https://b.com" else none

/-- Modelled from the spec: the response-header behavior of the external
CORS middleware (FastAPI/Starlette code, not part of this repository).
When no middleware is installed, responses are unchanged and no
cross-origin headers are added; when installed, cross-origin headers are
added only for origins on the allow-list. -/
def add_cors_headers (cfg : Option CORSConfig) (origin : String)
    (headers : List (String × String)) : List (String × String) :=
  match cfg with
  | none => headers
  | some c =>
    if origin ∈ c.allow_origins then
      ("access-control-allow-origin", origin) :: headers
    else headers

/-! ## OpenAPI Synthesizer (`custom_openapi`) -/

/-- The security requirement injected at the document root:
`[{"ApiKeyAuth": []}]`. -/
def security_requirement : Json :=
  Json.arr [Json.obj [("ApiKeyAuth", Json.arr [])]]

/-- The `x-speakeasy-retries` extension block injected at the document
root. -/
def speakeasy_retries : Json :=
  Json.obj [
    ("strategy", Json.str "backoff"),
    ("backoff", Json.obj [
      ("initialInterval", Json.num 500),
      ("maxInterval", Json.num 60000),
      ("maxElapsedTime", Json.num 3600000),
      ("exponent", Json.num (1.5 : Rat))]),
    ("statusCodes", Json.arr [Json.str "5xx"]),
    ("retryConnectionErrors", Json.bool true)]

/-- The `securitySchemes` component written under `components`. -/
def security_schemes : Json :=
  Json.obj [
    ("ApiKeyAuth", Json.obj [
      ("type", Json.str "apiKey"),
      ("name", Json.str "unstructured-api-key"),
      ("in", Json.str "header"),
      ("x-speakeasy-example", Json.str "YOUR_API_KEY")])]

/-- The hand-authored properties written over the renamed
`partition_parameters` component schema. -/
def partition_parameters_properties : Json :=
  Json.obj [
    ("files", Json.obj [
      ("type", Json.str "string"),
      ("format", Json.str "binary"),
      ("description", Json.str "The file to extract"),
      ("required", Json.str "true"),
      ("examples", Json.arr [Json.obj [
        ("summary", Json.str "File to be partitioned"),
        ("externalValue", Json.str "https://github.com/Unstructured-IO/unstructured/blob/98d3541909f64290b5efb65a226fc3ee8a7cc5ee/example-docs/layout-parser-paper.pdf")]])]),
    ("strategy", Json.obj [
      ("type", Json.str "string"),
      ("title", Json.str "Strategy"),
      ("description", Json.str "The strategy to use for partitioning PDF/image. Options are fast, hi_res, auto. Default: auto"),
      ("examples", Json.arr [Json.str "hi_res"])]),
    ("gz_uncompressed_content_type", Json.obj [
      ("type", Json.str "string"),
      ("title", Json.str "Uncompressed Content Type"),
      ("description", Json.str "If file is gzipped, use this content type after unzipping"),
      ("examples", Json.arr [Json.str "application/pdf"])]),
    ("output_format", Json.obj [
      ("type", Json.str "string"),
      ("title", Json.str "Output Format"),
      ("description", Json.str "The format of the response. Supported formats are application/json and text/csv. Default: application/json."),
      ("examples", Json.arr [Json.str "application/json"])]),
    ("coordinates", Json.obj [
      ("type", Json.str "boolean"),
      ("title", Json.str "Coordinates"),
      ("description", Json.str "If true, return coordinates for each element. Default: false")]),
    ("encoding", Json.obj [
      ("type", Json.str "string"),
      ("title", Json.str "Encoding"),
      ("description", Json.str "The encoding method used to decode the text input. Default: utf-8"),
      ("examples", Json.arr [Json.str "utf-8"])]),
    ("hi_res_model_name", Json.obj [
      ("type", Json.str "string"),
      ("title", Json.str "Hi Res Model Name"),
      ("description", Json.str "The name of the inference model used when strategy is hi_res"),
      ("examples", Json.arr [Json.str "yolox"])]),
    ("include_page_breaks", Json.obj [
      ("type", Json.str "boolean"),
      ("title", Json.str "Include Page Breaks"),
      ("description", Json.str "If True, the output will include page breaks if the filetype supports it. Default: false")]),
    ("languages", Json.obj [
      ("items", Json.obj [
        ("type", Json.str "string"),
        ("examples", Json.arr [Json.str "eng"])]),
      ("type", Json.str "array"),
      ("title", Json.str "OCR Languages"),
      ("default", Json.arr []),
      ("description", Json.str "The languages present in the document, for use in partitioning and/or OCR"),
      ("examples", Json.arr [Json.str "[eng]"])]),
    ("pdf_infer_table_structure", Json.obj [
      ("type", Json.str "boolean"),
      ("title", Json.str "Pdf Infer Table Structure"),
      ("description", Json.str "If True and strategy=hi_res, any Table Elements extracted from a PDF will include an additional metadata field, \x27text_as_html\x27, where the value (string) is a just a transformation of the data into an HTML <table>.")]),
    ("skip_infer_table_types", Json.obj [
      ("items", Json.obj [
        ("type", Json.str "string"),
        ("examples", Json.arr [Json.str "pdf"])]),
      ("type", Json.str "array"),
      ("title", Json.str "Skip Infer Table Types"),
      ("description", Json.str "The document types that you want to skip table extraction with. Default: [\x27pdf\x27, \x27jpg\x27, \x27png\x27]")]),
    ("xml_keep_tags", Json.obj [
      ("type", Json.str "boolean"),
      ("title", Json.str "Xml Keep Tags"),
      ("description", Json.str "If True, will retain the XML tags in the output. Otherwise it will simply extract the text from within the tags. Only applies to partition_xml.")]),
    ("chunking_strategy", Json.obj [
      ("type", Json.str "string"),
      ("title", Json.str "Chunking Strategy"),
      ("description", Json.str "Use one of the supported strategies to chunk the returned elements. Currently supports: by_title"),
      ("examples", Json.arr [Json.str "by_title"])]),
    ("multipage_sections", Json.obj [
      ("type", Json.str "boolean"),
      ("title", Json.str "Multipage Sections"),
      ("description", Json.str "If chunking strategy is set, determines if sections can span multiple sections. Default: true")]),
    ("combine_under_n_chars", Json.obj [
      ("type", Json.str "integer"),
      ("title", Json.str "Combine Under N Chars"),
      ("description", Json.str "If chunking strategy is set, combine elements until a section reaches a length of n chars. Default: 500"),
      ("examples", Json.arr [Json.num 500])]),
    ("new_after_n_chars", Json.obj [
      ("type", Json.str "integer"),
      ("title", Json.str "New after n chars"),
      ("description", Json.str "If chunking strategy is set, cut off new sections after reaching a length of n chars (soft max). Default: 1500"),
      ("examples", Json.arr [Json.num 1500])]),
    ("max_characters", Json.obj [
      ("type", Json.str "integer"),
      ("title", Json.str "Max Characters"),
      ("description", Json.str "If chunking strategy is set, cut off new sections after reaching a length of n chars (hard max). Default: 1500"),
      ("examples", Json.arr [Json.num 1500])])]

/-- The `Elements` component schema inserted under `components.schemas`. -/
def elements_schema : Json :=
  Json.obj [
    ("type", Json.str "array"),
    ("items", Json.obj [
      ("Element", Json.obj [
        ("type", Json.str "object"),
        ("properties", Json.obj [
          ("type", Json.obj []),
          ("element_id", Json.obj []),
          ("metadata", Json.obj []),
          ("text", Json.obj [])])])])]

/-- The body of `custom_openapi` after the baseline has been generated:
the sequence of in-place mutations the source applies to the generated
description, each subscript access modelled exactly (reads can raise
`KeyError`/`TypeError`, the final subscript of an assignment is a
setitem). -/
def synthesize (baseline : Json) : Except String Json :=
  Except.bind (setKey baseline "security" security_requirement) (fun s1 =>
  Except.bind (setKey s1 "x-speakeasy-retries" speakeasy_retries) (fun s2 =>
  Except.bind (updatePath s2
      ["paths", "/general/v0/general", "post", "requestBody", "content", "multipart/form-data", "schema"]
      (fun sch => setKey sch "$ref" (Json.str "#/components/schemas/partition_parameters"))) (fun s3 =>
  Except.bind (updatePath s3
      ["paths", "/general/v0/general", "post", "responses", "200", "content", "application/json"]
      (fun o => setKey o "schema" (Json.obj [("$ref", Json.str "#/components/schemas/Elements")]))) (fun s4 =>
  Except.bind (updatePath s4 ["components"]
      (fun c => setKey c "securitySchemes" security_schemes)) (fun s5 =>
  Except.bind (updatePath s5 ["components", "schemas"]
      (fun sch =>
        match popKey sch "Body_partition" with
        | Except.error e => Except.error e
        | Except.ok (v, sch') => setKey sch' "partition_parameters" v)) (fun s6 =>
  Except.bind (updatePath s6 ["components", "schemas", "partition_parameters"]
      (fun p => setKey p "title" (Json.str "Partition Parameters"))) (fun s7 =>
  Except.bind (updatePath s7 ["components", "schemas", "partition_parameters"]
      (fun p => setKey p "properties" partition_parameters_properties)) (fun s8 =>
  updatePath s8 ["components", "schemas"]
      (fun sch => setKey sch "Elements" elements_schema)))))))))

/-- The full `custom_openapi` entry point as a state transformer on the
process-wide cache `app.openapi_schema`.  Returns the result handed to
the caller, the cache state after the call, and whether synthesis work
(baseline mutation) was performed during the call.  The cache is written
only on the final line of the source function, so a failed synthesis
leaves it untouched. -/
def custom_openapi (openapi_schema : Option Json) (baseline : Json) :
    Except String Json × Option Json × Bool :=
  match openapi_schema with
  | some s => (Except.ok s, some s, false)
  | none =>
    match synthesize baseline with
    | Except.ok s => (Except.ok s, some s, true)
    | Except.error e => (Except.error e, none, true)

/-! ## Baseline generation and the app route table -/

/-- A route descriptor: path, HTTP method, declared request/response
schema fragments, and the inclusion flag for the published description. -/
structure APIRoute where
  path : String
  method : String
  operation : Json
  include_in_schema : Bool

/-- Modelled from the spec: FastAPI's `get_openapi` baseline generator
(external library code, not part of this repository).  It computes the
baseline description from the live route table — the paths of the routes
whose inclusion flag is set, each with its default operation fragment —
together with the auto-generated component schemas. -/
def get_openapi (routes : List APIRoute) (component_schemas : Json) : Json :=
  Json.obj [
    ("openapi", Json.str "3.1.0"),
    ("info", Json.obj [
      ("title", Json.str "Unstructured Pipeline API"),
      ("version", Json.str "0.0.57")]),
    ("paths", Json.obj
      ((routes.filter (fun r => r.include_in_schema)).map
        (fun r => (r.path, Json.obj [(r.method, r.operation)])))),
    ("components", Json.obj [("schemas", component_schemas)])]

/-- Modelled from the spec: the default operation fragment the generic
generator derives for the partition route of the external `general`
router (that router's module is not under `src/`): a multipart request
body whose schema references the auto-generated `Body_partition`
component, and a generic 200 JSON response. -/
def partition_operation : Json :=
  Json.obj [
    ("requestBody", Json.obj [
      ("content", Json.obj [
        ("multipart/form-data", Json.obj [
          ("schema", Json.obj [
            ("$ref", Json.str "#/components/schemas/Body_partition")])])])]),
    ("responses", Json.obj [
      ("200", Json.obj [
        ("content", Json.obj [
          ("application/json", Json.obj [
            ("schema", Json.obj [])])])])])]

/-- Modelled from the spec: the auto-generated request-body component the
generic generator derives for the partition route, under its unstable
auto-generated name. -/
def body_partition_auto : Json :=
  Json.obj [
    ("title", Json.str "Body_partition"),
    ("type", Json.str "object"),
    ("properties", Json.obj [
      ("files", Json.obj [
        ("type", Json.str "array"),
        ("items", Json.obj [
          ("type", Json.str "string"),
          ("format", Json.str "binary")]),
        ("title", Json.str "Files")])])]

/-- The partition route of the external `general` router (modelled from
the spec; included in the published description). -/
def general_route : APIRoute :=
  { path := "/general/v0/general", method := "post",
    operation := partition_operation, include_in_schema := true }

/-- The health probe route, registered with `include_in_schema=False`. -/
def healthcheck_route : APIRoute :=
  { path := "/healthcheck", method := "get",
    operation := Json.obj [
      ("responses", Json.obj [
        ("200", Json.obj [
          ("content", Json.obj [
            ("application/json", Json.obj [("schema", Json.obj [])])])])])],
    include_in_schema := false }

/-- The app's route table. -/
def app_routes : List APIRoute := [general_route, healthcheck_route]

/-- The auto-generated component schemas of the app's route table. -/
def app_component_schemas : Json :=
  Json.obj [("Body_partition", body_partition_auto)]

/-- The baseline description generated for the app's route table. -/
def app_baseline : Json := get_openapi app_routes app_component_schemas

/-- The synthesized document, when synthesis succeeds (`Json.null`
otherwise). -/
def synthOk (b : Json) : Json :=
  match synthesize b with
  | Except.ok d => d
  | Except.error _ => Json.null

/-- The `paths` object of a description document. -/
def docPaths (d : Json) : Json :=
  match getKey d "paths" with
  | Except.ok p => p
  | Except.error _ => Json.null

/-! ## Helper lemmas -/

theorem findSubPos_none_iff (sub l : List Char) : findSubPos sub l = none ↔ ¬ sub <:+: l := by
  induction l with
  | nil =>
    by_cases h : sub = ([] : List Char)
    · subst h; simp [findSubPos]
    · simp [findSubPos, h]
  | cons c rest ih =>
    by_cases h : sub <+: (c :: rest)
    · simp [findSubPos, h, List.infix_cons_iff]
    · simp [findSubPos, h, List.infix_cons_iff, ih]

theorem pyFind_neg_one_iff (s sub : String) :
    (pyFind s sub == -1) = true ↔ ¬ sub.toList <:+: s.toList := by
  unfold pyFind
  cases hf : findSubPos sub.toList s.toList with
  | none =>
    have hni := (findSubPos_none_iff sub.toList s.toList).mp hf
    simp only [beq_self_eq_true]
    exact iff_of_true trivial hni
  | some n =>
    have hinf : sub.toList <:+: s.toList := by
      by_contra hni
      rw [(findSubPos_none_iff _ _).mpr hni] at hf
      cases hf
    simp only [beq_iff_eq]
    constructor
    · intro habs
      simp only [Int.ofNat_eq_natCast] at habs
      omega
    · intro hn; exact absurd hinf hn

theorem lookup_objSet_self (fs : List (String × Json)) (k : String) (v : Json) :
    (objSet fs k v).lookup k = some v := by
  induction fs with
  | nil => simp [objSet, List.lookup]
  | cons p rest ih =>
    obtain ⟨k', v'⟩ := p
    by_cases h : k' = k
    · subst h; simp [objSet, List.lookup]
    · simp only [objSet, if_neg h, List.lookup]
      rw [show (k == k') = false from beq_eq_false_iff_ne.mpr (Ne.symm h)]
      exact ih

theorem lookup_objSet_ne (fs : List (String × Json)) (k k' : String) (v : Json)
    (hne : k' ≠ k) : (objSet fs k v).lookup k' = fs.lookup k' := by
  induction fs with
  | nil =>
    simp only [objSet, List.lookup]
    rw [show (k' == k) = false from beq_eq_false_iff_ne.mpr hne]
  | cons p rest ih =>
    obtain ⟨k'', v''⟩ := p
    by_cases h : k'' = k
    · subst h
      simp only [objSet, if_pos rfl, List.lookup]
      rw [show (k' == k'') = false from beq_eq_false_iff_ne.mpr hne]
    · simp only [objSet, if_neg h, List.lookup]
      cases hbe : (k' == k'') with
      | true => rfl
      | false => exact ih

theorem getKey_ok_ex {j v : Json} {k : String} (h : getKey j k = Except.ok v) :
    ∃ fs, j = Json.obj fs ∧ fs.lookup k = some v := by
  cases j with
  | obj fs =>
    refine ⟨fs, rfl, ?_⟩
    simp only [getKey] at h
    cases hl : fs.lookup k with
    | some w => rw [hl] at h; cases h; rfl
    | none => rw [hl] at h; cases h
  | null => cases h
  | bool b => cases h
  | num q => cases h
  | str s => cases h
  | arr xs => cases h

theorem getKey_setKey_self {j j' v : Json} {k : String}
    (h : setKey j k v = Except.ok j') : getKey j' k = Except.ok v := by
  cases j with
  | obj fs =>
    simp only [setKey] at h
    cases h
    simp [getKey, lookup_objSet_self]
  | null => cases h
  | bool b => cases h
  | num q => cases h
  | str s => cases h
  | arr xs => cases h

theorem getKey_setKey_ne {j j' v : Json} {k k' : String}
    (h : setKey j k v = Except.ok j') (hne : k' ≠ k) : getKey j' k' = getKey j k' := by
  cases j with
  | obj fs =>
    simp only [setKey] at h
    cases h
    simp [getKey, lookup_objSet_ne fs k k' v hne]
  | null => cases h
  | bool b => cases h
  | num q => cases h
  | str s => cases h
  | arr xs => cases h

theorem updatePath_cons_ok {j j' : Json} {k : String} {ks : List String}
    {f : Json → Except String Json} (h : updatePath j (k :: ks) f = Except.ok j') :
    ∃ v v', getKey j k = Except.ok v ∧ updatePath v ks f = Except.ok v' ∧
      setKey j k v' = Except.ok j' := by
  simp only [updatePath] at h
  cases hg : getKey j k with
  | error e => simp only [hg] at h; exact Except.noConfusion h
  | ok v =>
    simp only [hg] at h
    cases hu : updatePath v ks f with
    | error e => simp only [hu] at h; exact Except.noConfusion h
    | ok v' =>
      simp only [hu] at h
      exact ⟨v, v', rfl, hu, h⟩

theorem getKey_updatePath_ne {j j' : Json} {k k' : String} {ks : List String}
    {f : Json → Except String Json} (h : updatePath j (k :: ks) f = Except.ok j')
    (hne : k' ≠ k) : getKey j' k' = getKey j k' := by
  obtain ⟨v, v', hg, hu, hs⟩ := updatePath_cons_ok h
  exact getKey_setKey_ne hs hne

theorem popKey_ok_lookup {j v j' : Json} {k : String}
    (h : popKey j k = Except.ok (v, j')) : ∃ fs, j = Json.obj fs ∧ fs.lookup k = some v := by
  cases j with
  | obj fs =>
    refine ⟨fs, rfl, ?_⟩
    simp only [popKey] at h
    cases hl : fs.lookup k with
    | some w => rw [hl] at h; cases h; rfl
    | none => rw [hl] at h; cases h
  | null => cases h
  | bool b => cases h
  | num q => cases h
  | str s => cases h
  | arr xs => cases h

theorem bind_ok_inv {e : Except String Json} {g : Json → Except String Json} {d : Json}
    (h : Except.bind e g = Except.ok d) : ∃ s, e = Except.ok s ∧ g s = Except.ok d := by
  cases e with
  | error er => exact Except.noConfusion h
  | ok s => exact ⟨s, rfl, h⟩

theorem synthesize_ok_requires {b d : Json} (h : synthesize b = Except.ok d) :
    exIsOk (getPath b ["paths", "/general/v0/general"]) = true ∧
    exIsOk (getPath b ["components", "schemas", "Body_partition"]) = true := by
  unfold synthesize at h
  obtain ⟨s1, h1, h⟩ := bind_ok_inv h
  obtain ⟨s2, h2, h⟩ := bind_ok_inv h
  obtain ⟨s3, h3, h⟩ := bind_ok_inv h
  obtain ⟨s4, h4, h⟩ := bind_ok_inv h
  obtain ⟨s5, h5, h⟩ := bind_ok_inv h
  obtain ⟨s6, h6, h⟩ := bind_ok_inv h
  obtain ⟨s7, h7, h⟩ := bind_ok_inv h
  obtain ⟨s8, h8, h9⟩ := bind_ok_inv h
  -- the partition path must be present in the baseline
  obtain ⟨p, p', hgp, hup, hsp⟩ := updatePath_cons_ok h3
  obtain ⟨q, q', hgq, hupq, hsq⟩ := updatePath_cons_ok hup
  have e2p : getKey s2 "paths" = getKey s1 "paths" := getKey_setKey_ne h2 (by decide)
  have e1p : getKey s1 "paths" = getKey b "paths" := getKey_setKey_ne h1 (by decide)
  have hbp : getKey b "paths" = Except.ok p := by rw [← e1p, ← e2p]; exact hgp
  constructor
  · simp [getPath, hbp, hgq, exIsOk]
  -- the auto-generated body component must be present in the baseline
  · obtain ⟨c4, c4', hgc4, huc4, hsc4⟩ := updatePath_cons_ok h5
    simp only [updatePath] at huc4
    obtain ⟨c5, c5', hgc5, huc5, hsc5⟩ := updatePath_cons_ok h6
    obtain ⟨sc, sc', hgsc, husc, hssc⟩ := updatePath_cons_ok huc5
    simp only [updatePath] at husc
    cases hpop : popKey sc "Body_partition" with
    | error e => simp only [hpop] at husc; exact Except.noConfusion husc
    | ok pr =>
      obtain ⟨v, rest⟩ := pr
      obtain ⟨fs, hfs, hlook⟩ := popKey_ok_lookup hpop
      have e4c : getKey s4 "components" = getKey s3 "components" :=
        getKey_updatePath_ne h4 (by decide)
      have e3c : getKey s3 "components" = getKey s2 "components" :=
        getKey_updatePath_ne h3 (by decide)
      have e2c : getKey s2 "components" = getKey s1 "components" :=
        getKey_setKey_ne h2 (by decide)
      have e1c : getKey s1 "components" = getKey b "components" :=
        getKey_setKey_ne h1 (by decide)
      have hbc : getKey b "components" = Except.ok c4 := by
        rw [← e1c, ← e2c, ← e3c, ← e4c]; exact hgc4
      have h5c : getKey s5 "components" = Except.ok c4' := getKey_setKey_self hsc4
      have hc5eq : c5 = c4' := by
        rw [hgc5] at h5c; exact Except.ok.inj h5c
      have hcs : getKey c4 "schemas" = Except.ok sc := by
        have hne := getKey_setKey_ne huc4 (show "schemas" ≠ "securitySchemes" by decide)
        rw [← hne, ← hc5eq]; exact hgsc
      have hsc_look : getKey sc "Body_partition" = Except.ok v := by
        rw [hfs]; simp [getKey, hlook]
      simp [getPath, hbc, hcs, hsc_look, exIsOk]

/-! ## Claim theorems -/

/-- C1: for every structured failure (an `HTTPException` carrying status
code `S` and message `M`) raised during route handling, the emitted
response has HTTP status `S` and body `{"detail": M}`, and an error-level
log entry containing `M` is produced. -/
theorem http_error_handler_spec (S : Nat) (M : String) :
    (handle_failure (AppFailure.http ⟨S, M⟩)).1.status_code = S ∧
    (handle_failure (AppFailure.http ⟨S, M⟩)).1.content = Json.obj [("detail", Json.str M)] ∧
    ∃ entry ∈ (handle_failure (AppFailure.http ⟨S, M⟩)).2,
      entry.level = LogLevel.error ∧ M.toList <:+: entry.msg.toList := by
  refine ⟨rfl, rfl, ⟨{ level := LogLevel.error, msg := M }, ?_, rfl, ?_⟩⟩
  · simp [handle_failure, http_error_handler]
  · exact List.infix_refl _

/-- C2: for every unstructured failure (any exception that is not a
structured HTTP failure) with string representation `M`, the emitted
response has HTTP status 500 and body `{"detail": M}`, and no log entry
is produced at this layer for it. -/
theorem error_handler_spec (M : String) :
    handle_failure (AppFailure.unstructured ⟨M⟩) =
      ({ status_code := 500, content := Json.obj [("detail", Json.str M)] }, []) := rfl

/-- C3: invoking the OpenAPI synthesizer a second time in the same
process returns a document structurally equal to the one returned by the
first invocation, and the synthesis work is performed at most once: every
call after the first returns the cached document without recomputation. -/
theorem custom_openapi_idempotent_cached (b d : Json) (h : synthesize b = Except.ok d) :
    custom_openapi none b = (Except.ok d, some d, true) ∧
    custom_openapi (some d) b = (Except.ok d, some d, false) := by
  constructor
  · simp [custom_openapi, h]
  · simp [custom_openapi]

/-- Witness for C3 at the app's baseline description. -/
theorem custom_openapi_idempotent_cached_witness :
    synthesize app_baseline = Except.ok (synthOk app_baseline) ∧
    custom_openapi none app_baseline =
      (Except.ok (synthOk app_baseline), some (synthOk app_baseline), true) ∧
    custom_openapi (some (synthOk app_baseline)) app_baseline =
      (Except.ok (synthOk app_baseline), some (synthOk app_baseline), false) :=
  ⟨rfl, custom_openapi_idempotent_cached app_baseline (synthOk app_baseline) rfl⟩

/-- C4: if the baseline description lacks the expected partition-path
operation key or the auto-generated `Body_partition` component key,
synthesis fails loudly (the error propagates out of `custom_openapi`
unswallowed) and no partially-mutated document is published: the cache
stays unset. -/
theorem synthesize_fails_loudly (b : Json)
    (h : exIsOk (getPath b ["paths", "/general/v0/general"]) = false ∨
         exIsOk (getPath b ["components", "schemas", "Body_partition"]) = false) :
    exIsOk (synthesize b) = false ∧
    (custom_openapi none b).1 = synthesize b ∧
    (custom_openapi none b).2.1 = none := by
  cases hs : synthesize b with
  | error e => simp [custom_openapi, hs, exIsOk]
  | ok d =>
    exfalso
    obtain ⟨h1, h2⟩ := synthesize_ok_requires hs
    cases h with
    | inl hl => rw [h1] at hl; exact Bool.noConfusion hl
    | inr hr => rw [h2] at hr; exact Bool.noConfusion hr

/-- Witness for C4 at a baseline with no `paths` key at all. -/
theorem synthesize_fails_loudly_witness :
    exIsOk (getPath (Json.obj []) ["paths", "/general/v0/general"]) = false ∧
    (exIsOk (synthesize (Json.obj [])) = false ∧
     (custom_openapi none (Json.obj [])).1 = synthesize (Json.obj []) ∧
     (custom_openapi none (Json.obj [])).2.1 = none) :=
  ⟨rfl, synthesize_fails_loudly (Json.obj []) (Or.inl rfl)⟩

/-- C5: in the synthesized description, the partition operation's
multipart request-body schema reference points at the stably named
`partition_parameters` component, that component's properties are exactly
the hand-authored field set, and the operation's 200-response schema
reference resolves to the `Elements` component. -/
theorem partition_schema_refs_resolve :
    exIsOk (synthesize app_baseline) = true ∧
    getPath (synthOk app_baseline)
        ["paths", "/general/v0/general", "post", "requestBody", "content",
         "multipart/form-data", "schema", "$ref"]
      = Except.ok (Json.str "#/components/schemas/partition_parameters") ∧
    getPath (synthOk app_baseline)
        ["components", "schemas", "partition_parameters", "properties"]
      = Except.ok partition_parameters_properties ∧
    objKeys partition_parameters_properties =
      ["files", "strategy", "gz_uncompressed_content_type", "output_format", "coordinates",
       "encoding", "hi_res_model_name", "include_page_breaks", "languages",
       "pdf_infer_table_structure", "skip_infer_table_types", "xml_keep_tags",
       "chunking_strategy", "multipage_sections", "combine_under_n_chars",
       "new_after_n_chars", "max_characters"] ∧
    getPath (synthOk app_baseline)
        ["paths", "/general/v0/general", "post", "responses", "200", "content",
         "application/json", "schema", "$ref"]
      = Except.ok (Json.str "#/components/schemas/Elements") ∧
    getPath (synthOk app_baseline) ["components", "schemas", "Elements"]
      = Except.ok elements_schema :=
  ⟨rfl, rfl, rfl, rfl, rfl, rfl⟩

/-- C6: a GET request to the health path always returns status 200 with
exactly the fixed JSON payload, for every request and regardless of
request content. -/
theorem healthcheck_fixed_response (r : Request) :
    healthcheck r =
      { status_code := 200,
        content := Json.obj
          [("healthcheck", Json.str "HEALTHCHECK STATUS: EVERYTHING OK!")] } := rfl

/-- C7: the health endpoint's path never appears in the path list of the
synthesized API description document (it is excluded from the baseline by
its inclusion flag, and synthesis does not add it). -/
theorem healthcheck_absent_from_description :
    healthcheck_route.include_in_schema = false ∧
    exIsOk (synthesize app_baseline) = true ∧
    "/healthcheck" ∉ objKeys (docPaths app_baseline) ∧
    "/healthcheck" ∉ objKeys (docPaths (synthOk app_baseline)) := by
  refine ⟨rfl, rfl, ?_, ?_⟩ <;> decide

/-- C8: the access-log filters suppress a log record if and only if its
rendered message contains the liveness marker `"/healthcheck"` or the
metrics marker `"/metrics"`; every record of the error normalizer's
logger is passed through. -/
theorem access_log_filters_iff (r : LogRecord) :
    (emitted uvicorn_access_filters r = false ↔
      ("/healthcheck".toList <:+: r.getMessage.toList ∨
       "/metrics".toList <:+: r.getMessage.toList)) ∧
    emitted unstructured_api_filters r = true := by
  constructor
  · have hH := pyFind_neg_one_iff r.getMessage "/healthcheck"
    have hM := pyFind_neg_one_iff r.getMessage "/metrics"
    simp only [emitted, uvicorn_access_filters, List.all_cons, List.all_nil, Bool.and_true,
      HealthCheckFilter_filter, MetricsCheckFilter_filter]
    cases hfH : (pyFind r.getMessage "/healthcheck" == -1) <;>
      cases hfM : (pyFind r.getMessage "/metrics" == -1) <;>
        simp_all
  · rfl

/-- C9: when the origin allow-list environment variable is unset, the
CORS middleware is not installed and no CORS headers are added to any
response; when it is set to two comma-separated origins, exactly those
origins are allowed, with methods exactly OPTIONS and POST and request
header exactly Content-Type. -/
theorem cors_policy (env : String → Option String) :
    (env "ALLOWED_ORIGINS" = none →
      cors_middleware env = none ∧
      ∀ origin headers, add_cors_headers (cors_middleware env) origin headers = headers) ∧
    (env "ALLOWED_ORIGINS" = some "https://a.com,https://b.com" →
      cors_middleware env = some { allow_origins := ["https://a.com", "https://b.com"],
                                   allow_methods := ["OPTIONS", "POST"],
                                   allow_headers := ["Content-Type"] }) := by
  constructor
  · intro h
    constructor
    · simp [cors_middleware, allowed_origins, h]
    · intro origin headers
      simp [cors_middleware, allowed_origins, h, add_cors_headers]
  · intro h
    unfold cors_middleware allowed_origins
    rw [h]
    rfl

/-- Witness for C9 at a concrete unset environment and a concrete
two-origin environment. -/
theorem cors_policy_witness :
    (cors_middleware env_unset = none ∧
     ∀ origin headers, add_cors_headers (cors_middleware env_unset) origin headers = headers) ∧
    cors_middleware env_two_origins =
      some { allow_origins := ["https://a.com", "https://b.com"],
             allow_methods := ["OPTIONS", "POST"],
             allow_headers := ["Content-Type"] } :=
  ⟨(cors_policy env_unset).1 rfl, (cors_policy env_two_origins).2 rfl⟩

/-- C10: if synthesis fails partway, the process-wide cache remains
unset, the failure is reported to the caller, and a subsequent call
re-runs synthesis from scratch (it performs the work again and behaves
exactly like a fresh first call). -/
theorem failed_synthesis_cache_unset (b : Json) (e : String)
    (h : synthesize b = Except.error e) :
    custom_openapi none b = (Except.error e, none, true) ∧
    custom_openapi ((custom_openapi none b).2.1) b = custom_openapi none b ∧
    (custom_openapi ((custom_openapi none b).2.1) b).2.2 = true := by
  simp [custom_openapi, h]

/-- Witness for C10 at a baseline that has components but no paths. -/
theorem failed_synthesis_cache_unset_witness :
    synthesize (Json.obj [("components", Json.obj [("schemas", Json.obj [])])]) =
      Except.error "KeyError: paths" ∧
    (custom_openapi none (Json.obj [("components", Json.obj [("schemas", Json.obj [])])]) =
      (Except.error "KeyError: paths", none, true) ∧
     custom_openapi
        ((custom_openapi none (Json.obj [("components", Json.obj [("schemas", Json.obj [])])])).2.1)
        (Json.obj [("components", Json.obj [("schemas", Json.obj [])])]) =
      custom_openapi none (Json.obj [("components", Json.obj [("schemas", Json.obj [])])]) ∧
     (custom_openapi
        ((custom_openapi none (Json.obj [("components", Json.obj [("schemas", Json.obj [])])])).2.1)
        (Json.obj [("components", Json.obj [("schemas", Json.obj [])])])).2.2 = true) :=
  ⟨rfl, failed_synthesis_cache_unset _ _ rfl⟩
